import Mathlib

/-!
Verification development for the Show Up events API.

The definitions below are a shallow embedding of the repository's source:
`crawler.py` (job registry, job id generation, execution stub, crawl
endpoints), `router.py` (event listing and single-event lookup) and
`models.py` (request/response schemas).  Mutable module state (the `jobs`
dict) is passed explicitly; Python dicts become association lists with
dict semantics; HTTP errors become an `Except` error channel; the event
store (MongoDB) is modelled as a list of documents queried with the same
filters the code builds.
-/

set_option linter.unusedVariables false

namespace ShowUp

/-- A single-quote character, used to render Python f-string messages that
quote identifiers (kept out of source literals as a code point). -/
def apos : String := String.mk [Char.ofNat 39]

/-! ### Python dict model: association lists keyed by strings -/

variable {α : Type}

/-- `m[k]` lookup: value at the first matching key, if any. -/
def alistGet : List (String × α) → String → Option α
  | [], _ => none
  | (k2, v2) :: rest, k => if k2 = k then some v2 else alistGet rest k

/-- `m[k] = v` assignment: replace the value at an existing key, else append. -/
def alistSet : List (String × α) → String → α → List (String × α)
  | [], k, v => [(k, v)]
  | (k2, v2) :: rest, k, v =>
    if k2 = k then (k2, v) :: rest else (k2, v2) :: alistSet rest k v

/-- `del m[k]`: remove the first entry with the given key (if present). -/
def alistDel : List (String × α) → String → List (String × α)
  | [], _ => []
  | (k2, v2) :: rest, k => if k2 = k then rest else (k2, v2) :: alistDel rest k

/-! ### String helpers -/

/-- `s[:n]` on a Python string: the first `n` characters. -/
def strTake (s : String) (n : Nat) : String := String.mk (s.data.take n)

/-! ### models.py -/

/-- `CrawlRequest`: request body for `POST /crawl` (models.py). -/
structure CrawlRequest where
  urls : Option (List String) := none
  spider : String := "luma"
deriving DecidableEq

/-- `CrawlResponse`: body returned by `POST /crawl` (models.py). -/
structure CrawlResponse where
  job_id : String
  status : String
deriving DecidableEq

/-- `fastapi.HTTPException`: status code plus detail message. -/
structure HTTPException where
  status_code : Nat
  detail : String
deriving DecidableEq

instance {ε σ : Type} [DecidableEq ε] [DecidableEq σ] : DecidableEq (Except ε σ) :=
  fun a b =>
    match a, b with
    | .error e1, .error e2 =>
      if h : e1 = e2 then isTrue (by rw [h]) else isFalse (by intro hc; cases hc; exact h rfl)
    | .ok v1, .ok v2 =>
      if h : v1 = v2 then isTrue (by rw [h]) else isFalse (by intro hc; cases hc; exact h rfl)
    | .error _, .ok _ => isFalse (by intro hc; cases hc)
    | .ok _, .error _ => isFalse (by intro hc; cases hc)

/-! ### crawler.py: job registry and job id generation -/

/-- The in-memory job store `jobs: dict[str, str]` mapping job_id to status. -/
abbrev Registry := List (String × String)

/-- A `datetime.now()` reading, split into calendar fields. -/
structure DateTime where
  year : Nat
  month : Nat
  day : Nat
  hour : Nat
  minute : Nat
  second : Nat
deriving DecidableEq

/-- Fuelled digit extraction; a positive `n` has at most `n` decimal digits,
so fuel `n` always suffices. -/
def revDigitsFuel : Nat → Nat → List Char
  | _, 0 => []
  | 0, _ + 1 => []
  | f + 1, n + 1 => Nat.digitChar ((n + 1) % 10) :: revDigitsFuel f ((n + 1) / 10)

/-- Decimal digits of `n`, least significant first. -/
def natToRevDigits (n : Nat) : List Char := revDigitsFuel n n

/-- Decimal rendering of a natural number. -/
def natStr (n : Nat) : String :=
  if n = 0 then "0" else String.mk (natToRevDigits n).reverse

/-- Zero-padded decimal rendering (the `%Y`/`%m`/... directives). -/
def padNum (width : Nat) (n : Nat) : String :=
  String.mk (List.replicate (width - (natStr n).length) (Char.ofNat 48)) ++ natStr n

/-- `datetime.now().strftime("%Y%m%d_%H%M%S")`. -/
def strftimeYmdHMS (dt : DateTime) : String :=
  padNum 4 dt.year ++ padNum 2 dt.month ++ padNum 2 dt.day ++ "_" ++
    padNum 2 dt.hour ++ padNum 2 dt.minute ++ padNum 2 dt.second

/-- `_generate_job_id` (crawler.py): `crawl_{timestamp}_{spider_name}_{unique_id}`
where `unique_id = str(uuid.uuid4())[:8]`.  The current time and the drawn
UUID string are explicit inputs. -/
def _generate_job_id (spider_name : String) (now : DateTime) (uuid : String) : String :=
  let timestamp := strftimeYmdHMS now
  let unique_id := strTake uuid 8
  "crawl_" ++ timestamp ++ "_" ++ spider_name ++ "_" ++ unique_id

/-! ### crawler.py: the execution stub `_run_spider_async` -/

/-- Whether the simulated crawl work between the `running` write and the
`completed` write raises an exception (the awaits and logging are the only
fallible operations there; the dict writes themselves do not raise). -/
inductive StubOutcome
  | ok
  | exn
deriving DecidableEq

/-- `_run_spider_async` (crawler.py).  Returns the updated registry together
with the sequence of status writes it performed for `job_id`.  The
`try`/`except Exception` wrapper converts any error raised by the simulated
work into a single `failed` write; nothing propagates to the caller, which
the total return type reflects.  `settings` is accepted (as in the source)
but never read by the stub. -/
def _run_spider_async (spider_name : String) (job_id : String)
    (settings : List (String × String)) (outcome : StubOutcome)
    (jobs : Registry) : Registry × List String :=
  let jobs1 := alistSet jobs job_id "running"
  match outcome with
  | .ok => (alistSet jobs1 job_id "completed", ["running", "completed"])
  | .exn => (alistSet jobs1 job_id "failed", ["running", "failed"])

/-- A background task that `asyncio.create_task` would schedule. -/
structure StubTask where
  spider_name : String
  job_id : String
deriving DecidableEq

/-- Run every scheduled stub task over the registry, each with its own
outcome. -/
def run_all_tasks (tasks : List StubTask) (outcomes : String → StubOutcome)
    (settings : List (String × String)) (jobs : Registry) : Registry :=
  tasks.foldl
    (fun js t => (_run_spider_async t.spider_name t.job_id settings (outcomes t.job_id) js).1)
    jobs

/-! ### crawler.py: endpoints -/

/-- The allow-list in `trigger_crawl`. -/
def available_spiders : List String := ["luma", "eventbrite"]

/-- Detail message of the 400 error in `trigger_crawl`:
`Spider '{spider_name}' not found. Available: ['luma', 'eventbrite']`. -/
def invalidSpiderDetail (spider_name : String) : String :=
  "Spider " ++ apos ++ spider_name ++ apos ++ " not found. Available: [" ++
    apos ++ "luma" ++ apos ++ ", " ++ apos ++ "eventbrite" ++ apos ++ "]"

/-- Detail message of the 404 errors: `Job '{job_id}' not found`. -/
def jobNotFoundDetail (job_id : String) : String :=
  "Job " ++ apos ++ job_id ++ apos ++ " not found"

/-- Message returned by a successful delete: `Job '{job_id}' has been removed`. -/
def removedDetail (job_id : String) : String :=
  "Job " ++ apos ++ job_id ++ apos ++ " has been removed"

/-- `trigger_crawl` (crawler.py).  Besides the HTTP result it returns the
registry after the call and the list of background tasks the call scheduled.
The source keeps the `asyncio.create_task(_run_spider_async(...))` line
commented out, so the scheduled-task list is empty on every path. -/
def trigger_crawl (request : Option CrawlRequest) (now : DateTime) (uuid : String)
    (jobs : Registry) :
    Except HTTPException CrawlResponse × Registry × List StubTask :=
  let req := request.getD {}
  let spider_name := req.spider
  if spider_name ∉ available_spiders then
    (.error ⟨400, invalidSpiderDetail spider_name⟩, jobs, [])
  else
    let job_id := _generate_job_id spider_name now uuid
    (.ok ⟨job_id, "pending"⟩, alistSet jobs job_id "pending", [])

/-- `get_crawl_status` (crawler.py): 404 when the id is absent, else the
pair rendered as `{"job_id": ..., "status": ...}`. -/
def get_crawl_status (job_id : String) (jobs : Registry) :
    Except HTTPException (String × String) :=
  match alistGet jobs job_id with
  | none => .error ⟨404, jobNotFoundDetail job_id⟩
  | some status => .ok (job_id, status)

/-- One step of the `status_counts` loop in `list_crawl_jobs`:
`status_counts[status] = status_counts.get(status, 0) + 1`. -/
def bump (acc : List (String × Nat)) (status : String) : List (String × Nat) :=
  alistSet acc status ((alistGet acc status).getD 0 + 1)

/-- Response shape of `GET /crawl`. -/
structure ListJobsResponse where
  jobs : Registry
  total_jobs : Nat
  status_summary : List (String × Nat)
deriving DecidableEq

/-- `list_crawl_jobs` (crawler.py). -/
def list_crawl_jobs (jobs : Registry) : ListJobsResponse :=
  let status_counts := (jobs.map Prod.snd).foldl bump []
  { jobs := jobs, total_jobs := jobs.length, status_summary := status_counts }

/-- `cancel_crawl_job` (crawler.py): 404 when the id is absent, else remove
the entry and confirm with `{"message": ..., "job_id": ...}`. -/
def cancel_crawl_job (job_id : String) (jobs : Registry) :
    Except HTTPException ((String × String) × Registry) :=
  match alistGet jobs job_id with
  | none => .error ⟨404, jobNotFoundDetail job_id⟩
  | some _ => .ok ((removedDetail job_id, job_id), alistDel jobs job_id)

/-! ### router.py: the event store and the public projection

The MongoDB collection is a list of documents; a document is an association
list from field names to BSON values.  The BSON value model is restricted to
the shapes the routes and the projection distinguish: strings, integers,
null, and the string-to-float dictionaries of the `coordinates` field
(float values are carried opaquely, never computed with). -/

/-- Opaque stand-in for an IEEE double stored in a coordinates dict. -/
structure FloatVal where
  lit : String
deriving DecidableEq

/-- A stored BSON value. -/
inductive BVal
  | str (s : String)
  | int (n : Int)
  | coords (m : List (String × FloatVal))
  | null
deriving DecidableEq

/-- A stored MongoDB document. -/
abbrev Document := List (String × BVal)

/-- `EventOut` (models.py): the public event projection; every field optional. -/
structure EventOut where
  title : Option String := none
  url : Option String := none
  description : Option String := none
  date : Option String := none
  end_date : Option String := none
  timezone : Option String := none
  location : Option String := none
  full_address : Option String := none
  city : Option String := none
  country : Option String := none
  coordinates : Option (List (String × FloatVal)) := none
  place_id : Option String := none
  event_type : Option String := none
  visibility : Option String := none
  api_id : Option String := none
  cover_url : Option String := none
  organizer : Option String := none
  guest_count : Option Int := none
  html_content : Option String := none
  raw_html : Option String := none
  extraction_method : Option String := none
deriving DecidableEq

/-- Read a `str | None` field: absent and null give `none`; a non-string,
non-null value fails validation. -/
def fieldAsOptStr (d : Document) (k : String) : Option (Option String) :=
  match alistGet d k with
  | none => some none
  | some (BVal.str s) => some (some s)
  | some BVal.null => some none
  | some _ => none

/-- Read an `int | None` field. -/
def fieldAsOptInt (d : Document) (k : String) : Option (Option Int) :=
  match alistGet d k with
  | none => some none
  | some (BVal.int n) => some (some n)
  | some BVal.null => some none
  | some _ => none

/-- Read a `dict[str, float] | None` field. -/
def fieldAsOptCoords (d : Document) (k : String) : Option (Option (List (String × FloatVal))) :=
  match alistGet d k with
  | none => some none
  | some (BVal.coords m) => some (some m)
  | some BVal.null => some none
  | some _ => none

/-- Field names of the projection typed `str | None` in models.py. -/
def eventOutStrFields : List String :=
  ["title", "url", "description", "date", "end_date", "timezone", "location",
   "full_address", "city", "country", "place_id", "event_type", "visibility",
   "api_id", "cover_url", "organizer", "html_content", "raw_html",
   "extraction_method"]

/-- `EventOut(**event)`: validate every declared field of the document
against the projection and build it; `none` models the pydantic
`ValidationError` raised when any field has the wrong shape.  Unknown extra
fields are ignored. -/
def eventOutOfDoc (d : Document) : Option EventOut :=
  if (eventOutStrFields.all fun k => (fieldAsOptStr d k).isSome)
      && (fieldAsOptCoords d "coordinates").isSome
      && (fieldAsOptInt d "guest_count").isSome then
    some
      {
        title := (fieldAsOptStr d "title").getD none
        url := (fieldAsOptStr d "url").getD none
        description := (fieldAsOptStr d "description").getD none
        date := (fieldAsOptStr d "date").getD none
        end_date := (fieldAsOptStr d "end_date").getD none
        timezone := (fieldAsOptStr d "timezone").getD none
        location := (fieldAsOptStr d "location").getD none
        full_address := (fieldAsOptStr d "full_address").getD none
        city := (fieldAsOptStr d "city").getD none
        country := (fieldAsOptStr d "country").getD none
        coordinates := (fieldAsOptCoords d "coordinates").getD none
        place_id := (fieldAsOptStr d "place_id").getD none
        event_type := (fieldAsOptStr d "event_type").getD none
        visibility := (fieldAsOptStr d "visibility").getD none
        api_id := (fieldAsOptStr d "api_id").getD none
        cover_url := (fieldAsOptStr d "cover_url").getD none
        organizer := (fieldAsOptStr d "organizer").getD none
        guest_count := (fieldAsOptInt d "guest_count").getD none
        html_content := (fieldAsOptStr d "html_content").getD none
        raw_html := (fieldAsOptStr d "raw_html").getD none
        extraction_method := (fieldAsOptStr d "extraction_method").getD none
      }
  else none

/-! ### Mongo `$regex` with `$options: "i"` (collaborator model)

The routes only ever build patterns that are literal text, except for the
title fallback which substitutes the two-character sequence backslash-s
followed by a plus for each hyphen.  The matcher below interprets exactly
those pattern shapes: a literal character token, and a one-or-more
whitespace token. -/

/-- One regex token. -/
inductive RTok
  | lit (c : Char)
  | ws
deriving DecidableEq

/-- Tokenize a pattern: the three-character sequence backslash, `s`, `+`
becomes a whitespace token, anything else is literal. -/
def parseRx : List Char → List RTok
  | [] => []
  | [c] => [RTok.lit c]
  | [c, s] => RTok.lit c :: parseRx [s]
  | c :: s :: p :: rest2 =>
    if c = Char.ofNat 92 ∧ s = 's' ∧ p = '+' then RTok.ws :: parseRx rest2
    else RTok.lit c :: parseRx (s :: p :: rest2)

/-- Fuelled matching step.  Every step either consumes a token together with
a text character or consumes a text character while keeping the whitespace
token, so `ts.length + 2 * txt.length + 1` fuel always reaches a terminal
pattern before running out. -/
def rmatchFuel : Nat → List RTok → List Char → Bool
  | 0, _, _ => false
  | _ + 1, [], _ => true
  | f + 1, RTok.lit c :: ts, x :: xs => (c.toLower == x.toLower) && rmatchFuel f ts xs
  | f + 1, RTok.ws :: ts, x :: xs =>
    x.isWhitespace && (rmatchFuel f ts xs || rmatchFuel f (RTok.ws :: ts) xs)
  | _ + 1, _ :: _, [] => false

/-- Match tokens against the start of the text, case-insensitively. -/
def rmatchHere (ts : List RTok) (txt : List Char) : Bool :=
  rmatchFuel (ts.length + 2 * txt.length + 1) ts txt

/-- Unanchored search: does the pattern match anywhere in the text? -/
def rsearch (ts : List RTok) : List Char → Bool
  | [] => rmatchHere ts []
  | x :: rest => rmatchHere ts (x :: rest) || rsearch ts rest

/-- Case-insensitive regex search of `pat` inside `txt`. -/
def regexSearchCI (pat : String) (txt : String) : Bool :=
  rsearch (parseRx pat.data) txt.data

/-! ### router.py: `GET /events` -/

/-- One condition of the Mongo filter document built by `get_events`. -/
inductive FilterCond
  | regexCI (pat : String)
  | eqStr (v : String)
deriving DecidableEq

/-- Does a stored document satisfy one filter condition on a field? -/
def condHolds (d : Document) (field : String) : FilterCond → Bool
  | .regexCI pat =>
    match alistGet d field with
    | some (BVal.str s) => regexSearchCI pat s
    | _ => false
  | .eqStr v => decide (alistGet d field = some (BVal.str v))

/-- `if param: filters[field] = cond` — Python truthiness skips both absent
and empty-string parameters. -/
def optFilter (field : String) (v : Option String) (mk : String → FilterCond) :
    List (String × FilterCond) :=
  match v with
  | some s => if s = "" then [] else [(field, mk s)]
  | none => []

/-- The `filters` dict built in `get_events` (insertion order of the source). -/
def buildFilters (city country event_type organizer : Option String) :
    List (String × FilterCond) :=
  optFilter "city" city FilterCond.regexCI ++
    optFilter "country" country FilterCond.regexCI ++
    optFilter "event_type" event_type FilterCond.eqStr ++
    optFilter "organizer" organizer FilterCond.regexCI

/-- Conjunction of all filter conditions (Mongo filter semantics). -/
def docMatchesFilters (filters : List (String × FilterCond)) (d : Document) : Bool :=
  filters.all (fun fc => condHolds d fc.1 fc.2)

/-- `db.count_documents(filters)`: matching records regardless of paging or
projection mapping. -/
def countMatching (db : List Document)
    (city country event_type organizer : Option String) : Nat :=
  (db.filter (docMatchesFilters (buildFilters city country event_type organizer))).length

/-- Body and headers of the `GET /events` response.  The numeric headers are
serialized to decimal strings by the code; `X-Has-More` is the literal
string `"true"` or `"false"`. -/
structure EventsResponse where
  events : List EventOut
  xTotalCount : Nat
  xLimit : Nat
  xSkip : Nat
  xHasMore : String
deriving DecidableEq

/-- `get_events` (router.py): count, page with skip/limit, map each page
record through the projection dropping the ones that fail, set headers. -/
def get_events (db : List Document) (limit skip : Nat)
    (city country event_type organizer : Option String) : EventsResponse :=
  let filters := buildFilters city country event_type organizer
  let total_events := (db.filter (docMatchesFilters filters)).length
  let page := ((db.filter (docMatchesFilters filters)).drop skip).take limit
  let events := page.filterMap (fun e => eventOutOfDoc (alistDel e "_id"))
  { events := events
    xTotalCount := total_events
    xLimit := limit
    xSkip := skip
    xHasMore := if total_events > skip + limit then "true" else "false" }

/-! ### router.py: `GET /events/{api_id}` -/

/-- `db.find_one({"api_id": api_id})`: first document whose `api_id` field
equals the string. -/
def findByApiId (db : List Document) (api_id : String) : Option Document :=
  db.find? (fun d => decide (alistGet d "api_id" = some (BVal.str api_id)))

/-- `api_id.replace("-", "\\s+")`: substitute backslash-s-plus for every
hyphen, at code-point level. -/
def replaceDashes : List Char → List Char
  | [] => []
  | c :: rest =>
    if c = '-' then Char.ofNat 92 :: 's' :: '+' :: replaceDashes rest
    else c :: replaceDashes rest

/-- The fallback filter predicate:
`{"title": {"$regex": api_id.replace("-", "\\s+"), "$options": "i"}}`. -/
def titleFallbackPred (api_id : String) (d : Document) : Bool :=
  match alistGet d "title" with
  | some (BVal.str t) => rsearch (parseRx (replaceDashes api_id.data)) t.data
  | _ => false

/-- The fallback `find_one` on title. -/
def findByTitleFallback (db : List Document) (api_id : String) : Option Document :=
  db.find? (titleFallbackPred api_id)

/-- The lookup chain of `get_event`: exact `api_id` first, title regex
fallback only when that found nothing. -/
def lookedUpEvent (db : List Document) (api_id : String) : Option Document :=
  match findByApiId db api_id with
  | none => findByTitleFallback db api_id
  | some e => some e

/-- Detail of the 500 error in `get_event`.  The source appends `str(e)` of
the pydantic exception; the embedding keeps the fixed message stem. -/
def mappingErrorDetail : String := "Error processing event data: "

/-- `get_event` (router.py). -/
def get_event (db : List Document) (api_id : String) : Except HTTPException EventOut :=
  match lookedUpEvent db api_id with
  | none => .error ⟨404, "Event not found"⟩
  | some e =>
    match eventOutOfDoc (alistDel e "_id") with
    | some out => .ok out
    | none => .error ⟨500, mappingErrorDetail⟩

/-- A fixed sample clock reading used for concrete scenarios. -/
def dt0 : DateTime := ⟨2024, 1, 1, 12, 34, 56⟩

/-- A fixed sample UUID string used for concrete scenarios. -/
def uuid0 : String := "abcd1234-0000-0000-0000-000000000000"

/-- Every character of the string is a decimal digit. -/
abbrev allDigits (s : String) : Prop := ∀ c ∈ s.data, c.isDigit

/-- Lowercase hexadecimal alphabet, as produced by `str(uuid.uuid4())`. -/
def isHexChar (c : Char) : Bool := c.isDigit || (decide (Char.ofNat 97 ≤ c) && decide (c ≤ Char.ofNat 102))

/-- Every character of the string is a lowercase hex digit. -/
abbrev allHex (s : String) : Prop := ∀ c ∈ s.data, isHexChar c

/-! ## Supporting lemmas -/

theorem alistGet_set_self (m : List (String × α)) (k : String) (v : α) :
    alistGet (alistSet m k v) k = some v := by
  induction m with
  | nil => simp [alistSet, alistGet]
  | cons hd tl ih =>
    obtain ⟨k2, v2⟩ := hd
    by_cases h : k2 = k
    · simp [alistSet, h, alistGet]
    · simp [alistSet, h, alistGet, ih]

theorem alistGet_eq_none_of_not_mem (m : List (String × α)) (k : String)
    (h : k ∉ m.map Prod.fst) : alistGet m k = none := by
  induction m with
  | nil => rfl
  | cons hd tl ih =>
    obtain ⟨k2, v2⟩ := hd
    simp only [List.map_cons, List.mem_cons] at h
    push_neg at h
    obtain ⟨h1, h2⟩ := h
    simp only [alistGet]
    rw [if_neg (Ne.symm h1)]
    exact ih h2

theorem alistGet_del_self (m : List (String × α)) (k : String)
    (hnd : (m.map Prod.fst).Nodup) : alistGet (alistDel m k) k = none := by
  induction m with
  | nil => rfl
  | cons hd tl ih =>
    obtain ⟨k2, v2⟩ := hd
    simp only [List.map_cons, List.nodup_cons] at hnd
    by_cases h : k2 = k
    · subst h
      simpa [alistDel] using alistGet_eq_none_of_not_mem tl k2 hnd.1
    · simp [alistDel, h, alistGet, ih hnd.2]

theorem strData_append (a b : String) : (a ++ b).data = a.data ++ b.data := by
  cases a; cases b; rfl

theorem strAppend_assoc (a b c : String) : a ++ b ++ c = a ++ (b ++ c) := by
  cases a; cases b; cases c
  apply congrArg String.mk
  exact List.append_assoc ..

theorem strLength_mk (l : List Char) : (String.mk l).length = l.length := rfl

theorem strLength_append (a b : String) : (a ++ b).length = a.length + b.length := by
  cases a with
  | mk d1 => cases b with
    | mk d2 => exact List.length_append d1 d2

theorem strData_mk (l : List Char) : (String.mk l).data = l := rfl

theorem digitChar_isDigit (n : Nat) (h : n < 10) : (Nat.digitChar n).isDigit := by
  interval_cases n <;> decide

theorem revDigitsFuel_digits (f : Nat) : ∀ n, ∀ c ∈ revDigitsFuel f n, c.isDigit := by
  induction f with
  | zero => intro n c hc; cases n <;> simp [revDigitsFuel] at hc
  | succ f ih =>
    intro n c hc
    cases n with
    | zero => simp [revDigitsFuel] at hc
    | succ m =>
      simp only [revDigitsFuel, List.mem_cons] at hc
      rcases hc with h | h
      · subst h; exact digitChar_isDigit _ (Nat.mod_lt _ (by decide))
      · exact ih _ c h

theorem revDigitsFuel_length_le (f : Nat) :
    ∀ n k, n < 10 ^ k → (revDigitsFuel f n).length ≤ k := by
  induction f with
  | zero => intro n k h; cases n <;> simp [revDigitsFuel]
  | succ f ih =>
    intro n k h
    cases n with
    | zero => simp [revDigitsFuel]
    | succ m =>
      cases k with
      | zero => norm_num at h
      | succ k =>
        simp only [revDigitsFuel, List.length_cons]
        have hdiv : (m + 1) / 10 < 10 ^ k := by
          rw [Nat.div_lt_iff_lt_mul (by norm_num : (0:Nat) < 10)]
          calc m + 1 < 10 ^ (k + 1) := h
            _ = 10 ^ k * 10 := pow_succ 10 k
        exact Nat.succ_le_succ (ih _ k hdiv)

theorem natStr_digits (n : Nat) : allDigits (natStr n) := by
  intro c hc
  unfold natStr at hc
  split at hc
  · have h0 : ("0" : String).data = [Char.ofNat 48] := rfl
    rw [h0, List.mem_singleton] at hc
    rw [hc]
    decide
  · rw [strData_mk, List.mem_reverse] at hc
    exact revDigitsFuel_digits _ _ c hc

theorem natStr_length_le (n k : Nat) (h1 : n < 10 ^ k) (h2 : 1 ≤ k) :
    (natStr n).length ≤ k := by
  unfold natStr
  split
  · have h0 : ("0" : String).length = 1 := rfl
    omega
  · rw [strLength_mk, List.length_reverse]
    exact revDigitsFuel_length_le _ _ _ h1

theorem padNum_length (w n : Nat) (h : (natStr n).length ≤ w) :
    (padNum w n).length = w := by
  unfold padNum
  rw [strLength_append, strLength_mk, List.length_replicate]
  omega

theorem padNum_digits (w n : Nat) : allDigits (padNum w n) := by
  intro c hc
  unfold padNum at hc
  rw [strData_append, List.mem_append, strData_mk] at hc
  rcases hc with h | h
  · rw [List.mem_replicate] at h
    rw [h.2]
    decide
  · exact natStr_digits n c h

theorem sum_bump (acc : List (String × Nat)) (s : String) :
    ((bump acc s).map Prod.snd).sum = (acc.map Prod.snd).sum + 1 := by
  induction acc with
  | nil => simp [bump, alistSet, alistGet]
  | cons hd tl ih =>
    obtain ⟨k, v⟩ := hd
    by_cases h : k = s
    · simp [bump, alistSet, alistGet, h]
      omega
    · simp only [bump, alistGet, alistSet, if_neg h] at ih ⊢
      simp only [List.map_cons, List.sum_cons, ih]
      omega

theorem sum_foldl_bump (statuses : List String) :
    ∀ acc, (((statuses.foldl bump acc).map Prod.snd)).sum
      = (acc.map Prod.snd).sum + statuses.length := by
  induction statuses with
  | nil => intro acc; simp
  | cons s rest ih =>
    intro acc
    simp only [List.foldl_cons, List.length_cons]
    rw [ih (bump acc s), sum_bump]
    omega

/-! ## Claims about the crawl control surface -/

/-- C1: the spec requires the execution stub to be scheduled so that the job
later reaches `completed`, but the source keeps the
`asyncio.create_task(_run_spider_async(...))` call commented out:
`trigger_crawl` schedules no stub task on any path, and in the
submit-eventbrite scenario the job's status still reads `pending` after all
scheduled tasks (there are none) have run to completion. -/
theorem c1_no_stub_scheduled :
    (∀ (request : Option CrawlRequest) (now : DateTime) (uuid : String) (jobs : Registry),
        (trigger_crawl request now uuid jobs).2.2 = []) ∧
    (∀ (outcomes : String → StubOutcome) (settings : List (String × String)),
        get_crawl_status (_generate_job_id "eventbrite" dt0 uuid0)
          (run_all_tasks (trigger_crawl (some ⟨none, "eventbrite"⟩) dt0 uuid0 []).2.2
            outcomes settings
            (trigger_crawl (some ⟨none, "eventbrite"⟩) dt0 uuid0 []).2.1)
          = .ok (_generate_job_id "eventbrite" dt0 uuid0, "pending")) := by
  constructor
  · intro request now uuid jobs
    unfold trigger_crawl
    dsimp only
    split <;> rfl
  · intro outcomes settings
    show get_crawl_status _ (run_all_tasks [] outcomes settings _) = _
    show get_crawl_status _ (alistSet [] _ "pending") = _
    simp [get_crawl_status, alistGet_set_self]

/-- C2: for every valid spider name, submit returns the generated job id
with status `pending`, inserts that id as `pending` into the registry, and
an immediate status query on the resulting registry returns `pending`. -/
theorem c2_submit_valid_pending (req : CrawlRequest) (now : DateTime) (uuid : String)
    (jobs : Registry) (hvalid : req.spider ∈ available_spiders) :
    ∃ job_id,
      trigger_crawl (some req) now uuid jobs =
        (.ok ⟨job_id, "pending"⟩, alistSet jobs job_id "pending", []) ∧
      alistGet (alistSet jobs job_id "pending") job_id = some "pending" ∧
      get_crawl_status job_id (trigger_crawl (some req) now uuid jobs).2.1 =
        .ok (job_id, "pending") := by
  refine ⟨_generate_job_id req.spider now uuid, ?_, alistGet_set_self .., ?_⟩
  · unfold trigger_crawl
    dsimp only [Option.getD_some]
    rw [if_neg (not_not_intro hvalid)]
  · unfold trigger_crawl
    dsimp only [Option.getD_some]
    rw [if_neg (not_not_intro hvalid)]
    simp [get_crawl_status, alistGet_set_self]

/-- C2 witness: the eventbrite scenario on an empty registry. -/
theorem c2_submit_valid_pending_witness :
    ∃ job_id,
      trigger_crawl (some ⟨none, "eventbrite"⟩) dt0 uuid0 [] =
        (.ok ⟨job_id, "pending"⟩, alistSet [] job_id "pending", []) ∧
      alistGet (alistSet [] job_id "pending") job_id = some "pending" ∧
      get_crawl_status job_id (trigger_crawl (some ⟨none, "eventbrite"⟩) dt0 uuid0 []).2.1 =
        .ok (job_id, "pending") :=
  c2_submit_valid_pending ⟨none, "eventbrite"⟩ dt0 uuid0 [] (by decide)

/-- C3: for every spider name outside the allow-list, submit fails with a
400 whose detail names both allowed spiders, and the registry (and the task
list) are exactly what they were — no job is created on this path. -/
theorem c3_submit_invalid_spider (req : CrawlRequest) (now : DateTime) (uuid : String)
    (jobs : Registry) (hinvalid : req.spider ∉ available_spiders) :
    trigger_crawl (some req) now uuid jobs =
      (.error ⟨400, invalidSpiderDetail req.spider⟩, jobs, []) ∧
    (∃ p q, invalidSpiderDetail req.spider = p ++ "luma" ++ q) ∧
    (∃ p q, invalidSpiderDetail req.spider = p ++ "eventbrite" ++ q) := by
  refine ⟨?_, ?_, ?_⟩
  · unfold trigger_crawl
    dsimp only [Option.getD_some]
    rw [if_pos hinvalid]
  · refine ⟨"Spider " ++ apos ++ req.spider ++ apos ++ " not found. Available: [" ++ apos,
      apos ++ ", " ++ apos ++ "eventbrite" ++ apos ++ "]", ?_⟩
    simp only [invalidSpiderDetail, strAppend_assoc]
  · refine ⟨"Spider " ++ apos ++ req.spider ++ apos ++ " not found. Available: [" ++ apos ++
      "luma" ++ apos ++ ", " ++ apos, apos ++ "]", ?_⟩
    simp only [invalidSpiderDetail, strAppend_assoc]

/-- C3 witness: the meetup scenario. -/
theorem c3_submit_invalid_spider_witness :
    trigger_crawl (some ⟨none, "meetup"⟩) dt0 uuid0 [] =
      (.error ⟨400, invalidSpiderDetail "meetup"⟩, [], []) ∧
    (∃ p q, invalidSpiderDetail "meetup" = p ++ "luma" ++ q) ∧
    (∃ p q, invalidSpiderDetail "meetup" = p ++ "eventbrite" ++ q) :=
  c3_submit_invalid_spider ⟨none, "meetup"⟩ dt0 uuid0 [] (by decide)

/-- C4: whenever the execution stub runs, its status-write trace is exactly
`running` then `completed` on success, or `running` then `failed` when the
simulated work raises — the exception handler never lets an error escape
(the stub is total) and always leaves the job at a terminal status, so the
full sequence from creation is `pending, running, completed` or
`pending, running, failed`. -/
theorem c4_stub_terminal (spider_name job_id : String)
    (settings : List (String × String)) (outcome : StubOutcome) (jobs : Registry) :
    ((_run_spider_async spider_name job_id settings outcome jobs).2 =
        ["running", "completed"] ∧
      alistGet (_run_spider_async spider_name job_id settings outcome jobs).1 job_id =
        some "completed") ∨
    ((_run_spider_async spider_name job_id settings outcome jobs).2 =
        ["running", "failed"] ∧
      alistGet (_run_spider_async spider_name job_id settings outcome jobs).1 job_id =
        some "failed") := by
  cases outcome
  · exact Or.inl ⟨rfl, alistGet_set_self ..⟩
  · exact Or.inr ⟨rfl, alistGet_set_self ..⟩

/-- C5: a job id absent from the registry (never created or already removed)
gets the same `404` from both the status and the delete operation, so the
two histories are indistinguishable to callers; and a successful delete
removes the record, making the next status query on that id fail with the
same `404`. -/
theorem c5_missing_job_not_found (jobs : Registry) (job_id : String)
    (hnd : (jobs.map Prod.fst).Nodup) :
    (alistGet jobs job_id = none →
      get_crawl_status job_id jobs = .error ⟨404, jobNotFoundDetail job_id⟩ ∧
      cancel_crawl_job job_id jobs = .error ⟨404, jobNotFoundDetail job_id⟩) ∧
    (∀ resp jobs2, cancel_crawl_job job_id jobs = .ok (resp, jobs2) →
      jobs2 = alistDel jobs job_id ∧
      get_crawl_status job_id jobs2 = .error ⟨404, jobNotFoundDetail job_id⟩) := by
  constructor
  · intro h
    exact ⟨by simp [get_crawl_status, h], by simp [cancel_crawl_job, h]⟩
  · intro resp jobs2 hok
    cases hget : alistGet jobs job_id with
    | none => simp [cancel_crawl_job, hget] at hok
    | some v =>
      simp only [cancel_crawl_job, hget, Except.ok.injEq, Prod.mk.injEq] at hok
      obtain ⟨-, h2⟩ := hok
      subst h2
      exact ⟨rfl, by simp [get_crawl_status, alistGet_del_self _ _ hnd]⟩

/-- C5 witness: a never-created id on a one-job registry, and a
created-then-deleted id. -/
theorem c5_missing_job_not_found_witness :
    (get_crawl_status "job-z" [("job-a", "pending")] =
        .error ⟨404, jobNotFoundDetail "job-z"⟩ ∧
      cancel_crawl_job "job-z" [("job-a", "pending")] =
        .error ⟨404, jobNotFoundDetail "job-z"⟩) ∧
    get_crawl_status "job-a" [] = .error ⟨404, jobNotFoundDetail "job-a"⟩ :=
  ⟨(c5_missing_job_not_found [("job-a", "pending")] "job-z" (by decide)).1 (by decide),
    ((c5_missing_job_not_found [("job-a", "pending")] "job-a" (by decide)).2
      (removedDetail "job-a", "job-a") [] (by decide)).2⟩

/-- C9: the per-status counts in `status_summary` sum to `total_jobs`, and
`total_jobs` is the number of entries in the returned jobs mapping — for any
registry contents. -/
theorem c9_summary_sums (jobs : Registry) :
    ((list_crawl_jobs jobs).status_summary.map Prod.snd).sum =
      (list_crawl_jobs jobs).total_jobs ∧
    (list_crawl_jobs jobs).total_jobs = (list_crawl_jobs jobs).jobs.length := by
  refine ⟨?_, rfl⟩
  show (((jobs.map Prod.snd).foldl bump []).map Prod.snd).sum = jobs.length
  rw [sum_foldl_bump]
  simp

/-- C10: submit's observable behaviour — response, registry, scheduled
tasks — is a function of the spider name alone; the `urls` field is never
read after validation. -/
theorem c10_urls_no_effect (r1 r2 : CrawlRequest) (now : DateTime) (uuid : String)
    (jobs : Registry) (hsp : r1.spider = r2.spider) :
    trigger_crawl (some r1) now uuid jobs = trigger_crawl (some r2) now uuid jobs := by
  unfold trigger_crawl
  dsimp only [Option.getD_some]
  rw [hsp]

/-- C10 witness: two luma submissions differing only in `urls`. -/
theorem c10_urls_no_effect_witness :
    trigger_crawl (some ⟨some ["https://example.test/a"], "luma"⟩) dt0 uuid0 [] =
      trigger_crawl (some ⟨none, "luma"⟩) dt0 uuid0 [] :=
  c10_urls_no_effect ⟨some ["https://example.test/a"], "luma"⟩ ⟨none, "luma"⟩
    dt0 uuid0 [] rfl

/-- C6: for every spider name, the generated job id is the fixed stem
`crawl_` followed by the 14-digit second-resolution timestamp (8 date
digits, an underscore, 6 time digits), the spider name, and the 8-character
hex portion taken from the front of the UUID string — so the id embeds the
spider name and matches the documented shape. -/
theorem c6_job_id_format (spider : String) (dt : DateTime) (uuid : String)
    (hy1 : 1000 ≤ dt.year) (hy2 : dt.year ≤ 9999)
    (hmo : dt.month ≤ 99) (hd : dt.day ≤ 99) (hh : dt.hour ≤ 99)
    (hmi : dt.minute ≤ 99) (hs : dt.second ≤ 99)
    (hlen : 8 ≤ uuid.length) (hhex : allHex (strTake uuid 8)) :
    ∃ d8 d6 suf,
      _generate_job_id spider dt uuid =
        "crawl_" ++ d8 ++ "_" ++ d6 ++ "_" ++ spider ++ "_" ++ suf ∧
      d8.length = 8 ∧ allDigits d8 ∧
      d6.length = 6 ∧ allDigits d6 ∧
      suf.length = 8 ∧ allHex suf := by
  have p4 : (10:Nat) ^ 4 = 10000 := by norm_num
  have p2 : (10:Nat) ^ 2 = 100 := by norm_num
  have hyl : (natStr dt.year).length ≤ 4 := natStr_length_le _ _ (by omega) (by omega)
  have hmol : (natStr dt.month).length ≤ 2 := natStr_length_le _ _ (by omega) (by omega)
  have hdl : (natStr dt.day).length ≤ 2 := natStr_length_le _ _ (by omega) (by omega)
  have hhl : (natStr dt.hour).length ≤ 2 := natStr_length_le _ _ (by omega) (by omega)
  have hmil : (natStr dt.minute).length ≤ 2 := natStr_length_le _ _ (by omega) (by omega)
  have hsl : (natStr dt.second).length ≤ 2 := natStr_length_le _ _ (by omega) (by omega)
  refine ⟨padNum 4 dt.year ++ padNum 2 dt.month ++ padNum 2 dt.day,
    padNum 2 dt.hour ++ padNum 2 dt.minute ++ padNum 2 dt.second,
    strTake uuid 8, ?_, ?_, ?_, ?_, ?_, ?_, hhex⟩
  · unfold _generate_job_id strftimeYmdHMS
    simp only [strAppend_assoc]
  · rw [strLength_append, strLength_append,
      padNum_length _ _ hyl, padNum_length _ _ hmol, padNum_length _ _ hdl]
  · intro c hc
    rw [strData_append, List.mem_append, strData_append, List.mem_append] at hc
    rcases hc with (h | h) | h
    · exact padNum_digits _ _ c h
    · exact padNum_digits _ _ c h
    · exact padNum_digits _ _ c h
  · rw [strLength_append, strLength_append,
      padNum_length _ _ hhl, padNum_length _ _ hmil, padNum_length _ _ hsl]
  · intro c hc
    rw [strData_append, List.mem_append, strData_append, List.mem_append] at hc
    rcases hc with (h | h) | h
    · exact padNum_digits _ _ c h
    · exact padNum_digits _ _ c h
    · exact padNum_digits _ _ c h
  · have hd' : uuid.length = uuid.data.length := rfl
    rw [strTake, strLength_mk, List.length_take]
    omega

/-- C6 witness: the eventbrite scenario with the sample clock and UUID. -/
theorem c6_job_id_format_witness :
    ∃ d8 d6 suf,
      _generate_job_id "eventbrite" dt0 uuid0 =
        "crawl_" ++ d8 ++ "_" ++ d6 ++ "_" ++ "eventbrite" ++ "_" ++ suf ∧
      d8.length = 8 ∧ allDigits d8 ∧
      d6.length = 6 ∧ allDigits d6 ∧
      suf.length = 8 ∧ allHex suf :=
  c6_job_id_format "eventbrite" dt0 uuid0 (by decide) (by decide) (by decide)
    (by decide) (by decide) (by decide) (by decide) (by decide) (by decide)

/-! ## Claims about the event query surface -/

/-- C7: `X-Has-More` is the string `"true"` exactly when the number of
records matching the filters exceeds `skip + limit`; `X-Total-Count` equals
that matching count, which is a function of the filters alone — identical
under every `limit`/`skip` choice and independent of projection mapping
failures (it is computed on the raw documents before mapping). -/
theorem c7_has_more_iff (db : List Document) (limit skip : Nat)
    (city country event_type organizer : Option String)
    (h1 : 1 ≤ limit) (h2 : limit ≤ 100) :
    ((get_events db limit skip city country event_type organizer).xHasMore = "true" ↔
      countMatching db city country event_type organizer > skip + limit) ∧
    (get_events db limit skip city country event_type organizer).xTotalCount =
      countMatching db city country event_type organizer ∧
    ∀ limit2 skip2,
      (get_events db limit2 skip2 city country event_type organizer).xTotalCount =
        countMatching db city country event_type organizer := by
  refine ⟨?_, rfl, fun l2 s2 => rfl⟩
  show (if countMatching db city country event_type organizer > skip + limit
      then "true" else "false") = "true" ↔ _
  by_cases hgt : countMatching db city country event_type organizer > skip + limit
  · rw [if_pos hgt]
    exact ⟨fun _ => hgt, fun _ => rfl⟩
  · rw [if_neg hgt]
    exact ⟨fun h => absurd h (by decide), fun h => absurd h hgt⟩

/-- C7 witness: an empty store with the default paging parameters. -/
theorem c7_has_more_iff_witness :
    ((get_events [] 10 0 none none none none).xHasMore = "true" ↔
      countMatching [] none none none none > 0 + 10) ∧
    (get_events [] 10 0 none none none none).xTotalCount =
      countMatching [] none none none none ∧
    ∀ limit2 skip2,
      (get_events [] limit2 skip2 none none none none).xTotalCount =
        countMatching [] none none none none :=
  c7_has_more_iff [] 10 0 none none none none (by decide) (by decide)

/-- C8: the single-event lookup resolves by exact `api_id` first and only
falls back to the case-insensitive title regex (hyphens turned into
whitespace runs) when the exact lookup found nothing; it returns the 404
exactly when both lookups fail, the 500 mapping error exactly when a record
was found but fails the projection, and a mapped event exactly when a found
record projects. -/
theorem c8_get_event_errors (db : List Document) (api_id : String) :
    (get_event db api_id = .error ⟨404, "Event not found"⟩ ↔
      findByApiId db api_id = none ∧ findByTitleFallback db api_id = none) ∧
    (get_event db api_id = .error ⟨500, mappingErrorDetail⟩ ↔
      ∃ e, lookedUpEvent db api_id = some e ∧
        eventOutOfDoc (alistDel e "_id") = none) ∧
    (∀ e, findByApiId db api_id = some e → lookedUpEvent db api_id = some e) ∧
    (findByApiId db api_id = none →
      lookedUpEvent db api_id = findByTitleFallback db api_id) ∧
    (∀ out, get_event db api_id = .ok out ↔
      ∃ e, lookedUpEvent db api_id = some e ∧
        eventOutOfDoc (alistDel e "_id") = some out) := by
  have hnone : lookedUpEvent db api_id = none ↔
      (findByApiId db api_id = none ∧ findByTitleFallback db api_id = none) := by
    unfold lookedUpEvent
    cases h : findByApiId db api_id <;> simp [h]
  refine ⟨?_, ?_, ?_, ?_, ?_⟩
  · constructor
    · cases hL : lookedUpEvent db api_id with
      | none => exact fun _ => hnone.mp hL
      | some e =>
        cases hM : eventOutOfDoc (alistDel e "_id") with
        | none => intro h; simp [get_event, hL, hM] at h
        | some out => intro h; simp [get_event, hL, hM] at h
    · intro hand
      simp [get_event, hnone.mpr hand]
  · constructor
    · cases hL : lookedUpEvent db api_id with
      | none => intro h; simp [get_event, hL] at h
      | some e =>
        cases hM : eventOutOfDoc (alistDel e "_id") with
        | none => exact fun _ => ⟨e, rfl, hM⟩
        | some out => intro h; simp [get_event, hL, hM] at h
    · rintro ⟨e, he, hm⟩
      simp [get_event, he, hm]
  · intro e he
    simp [lookedUpEvent, he]
  · intro he
    simp [lookedUpEvent, he]
  · intro out
    constructor
    · cases hL : lookedUpEvent db api_id with
      | none => intro h; simp [get_event, hL] at h
      | some e =>
        cases hM : eventOutOfDoc (alistDel e "_id") with
        | none => intro h; simp [get_event, hL, hM] at h
        | some out2 =>
          intro h
          simp only [get_event, hL, hM, Except.ok.injEq] at h
          exact ⟨e, rfl, by rw [hM, h]⟩
    · rintro ⟨e, he, hm⟩
      simp [get_event, he, hm]

/-- C8 witness: an empty store yields the 404 for any id. -/
theorem c8_get_event_errors_witness :
    get_event [] "ghost-id" = .error ⟨404, "Event not found"⟩ :=
  ((c8_get_event_errors [] "ghost-id").1).mpr ⟨rfl, rfl⟩

end ShowUp
